import Mathlib

/-!
Shallow embedding of the college-counselling program (src/project.cpp).

The program parses a flat file of `"<rankStart>-<rankEnd>:<college>"` lines
into a vector of records, allocates a college by a first-match linear scan
over those records, offers two fixed-response strategies, counts the
constructed RankIntervalStrategy instances in a static counter, and drives
the whole flow from `main` with a single top-level exception handler that
reports the error message and returns 0.

C++ exceptions are modelled by `Except CppError`; the three exception
types that can reach the top-level handler (`std::runtime_error` from the
explicit `throw` sites, `std::invalid_argument` and `std::out_of_range`
from `std::stoi`) are the constructors of `CppError`.  The filesystem is a
function from path to the optional list of lines of the file at that path
(`none` = the stream fails to open).  The static counter is threaded as an
explicit `Nat`.
-/

namespace CollegeCounseling

/-- The C++ exception kinds that reach the top-level handler. -/
inductive CppError where
  | runtimeError (msg : String)
  | invalidArgument (msg : String)
  | outOfRange (msg : String)
deriving DecidableEq, Repr

/-- Model of `std::exception::what()`: the message carried by the exception. -/
def CppError.what : CppError → String
  | .runtimeError m => m
  | .invalidArgument m => m
  | .outOfRange m => m

/-- The characters `isspace` accepts in the default locale, which is what
`std::stoi` (via `strtol`) skips before the number. -/
def isCppSpace (c : Char) : Bool :=
  c = ' ' || c = '\t' || c = '\n' || c = '\x0b' || c = '\x0c' || c = '\r'

/-- Numeric value of a decimal digit character. -/
def digitVal (c : Char) : Nat := c.toNat - '0'.toNat

/-- Value of a string of decimal digits, most significant first. -/
def digitsVal (ds : List Char) : Nat :=
  ds.foldl (fun acc c => acc * 10 + digitVal c) 0

/-- Value of `INT_MIN` for the 32-bit `int` of the reference platform. -/
def intMin : Int := -(2 ^ 31)

/-- Value of `INT_MAX` for the 32-bit `int` of the reference platform. -/
def intMax : Int := 2 ^ 31 - 1

/-- The sign-and-digits part of a `strtol`-style scan, after the
whitespace skip: an optional sign, then the longest run of decimal
digits; `none` when that run is empty (no conversion could be
performed).  Characters after the digit run are ignored. -/
def intPrefixAfterWs : List Char → Option Int
  | [] => none
  | c :: rest =>
    if c = '-' then
      let ds := rest.takeWhile (fun d => d.isDigit)
      if ds = [] then none else some (-(digitsVal ds : Int))
    else if c = '+' then
      let ds := rest.takeWhile (fun d => d.isDigit)
      if ds = [] then none else some ((digitsVal ds : Int))
    else
      let ds := (c :: rest).takeWhile (fun d => d.isDigit)
      if ds = [] then none else some ((digitsVal ds : Int))

/-- The base-10 integer prefix a `strtol`-style scan reads: skip
whitespace, then sign and digits. -/
def intPrefixParse (l : List Char) : Option Int :=
  intPrefixAfterWs (l.dropWhile isCppSpace)

/-- Model of `std::stoi` on the exact argument string: `std::invalid_argument` when
no conversion can be performed, `std::out_of_range` when the value does
not fit in `int`. -/
def stoi (s : String) : Except CppError Int :=
  match intPrefixParse s.data with
  | none => .error (.invalidArgument "stoi")
  | some v =>
    if v < intMin || v > intMax then .error (.outOfRange "stoi") else .ok v

/-- Model of `std::cin >> userRank` for `int userRank` on an input token: skips
whitespace, reads an optional sign and digits; extraction fails (failbit,
hence `none`) when there is no digit or the value is out of `int` range. -/
def cinReadInt (s : String) : Option Int :=
  match intPrefixParse s.data with
  | none => none
  | some v => if v < intMin || v > intMax then none else some v

/-- Model of `s.find(sep)` followed by `s.substr(0, pos)` / `s.substr(pos + 1)`:
split at the FIRST occurrence of `sep`, `none` when `find` returns
`npos` (no occurrence). -/
def splitFirstAux (sep : Char) : List Char → Option (List Char × List Char)
  | [] => none
  | c :: cs =>
    if c = sep then some ([], cs)
    else (splitFirstAux sep cs).map (fun p => (c :: p.1, p.2))

/-- String wrapper for `splitFirstAux`. -/
def splitAtFirst (sep : Char) (s : String) : Option (String × String) :=
  match splitFirstAux sep s.data with
  | none => none
  | some (a, b) => some (String.mk a, String.mk b)

/-- Record `RankIntervalStrategy::CollegeData`. -/
structure CollegeData where
  rankStart : Int
  rankEnd : Int
  college : String
deriving DecidableEq, Repr

/-- The body of the `while (getline...)` loop of
`RankIntervalStrategy::loadCollegesData` for one line: split at the first
`':'` (else throw "Invalid data format"), split the range at the first
`'-'` (else throw "Invalid rank range"), `stoi` both halves. -/
def parseLine (line : String) : Except CppError CollegeData :=
  match splitAtFirst ':' line with
  | none => .error (.runtimeError "Error: Invalid data format in the data file.")
  | some (rankRange, college) =>
    match splitAtFirst '-' rankRange with
    | none => .error (.runtimeError "Error: Invalid rank range in the data file.")
    | some (startStr, endStr) =>
      match stoi startStr with
      | .error e => .error e
      | .ok rankStart =>
        match stoi endStr with
        | .error e => .error e
        | .ok rankEnd => .ok ⟨rankStart, rankEnd, college⟩

/-- Model of `loadCollegesData` over the lines of an already-open file: parse each
line in order, appending records in file order; the first bad line throws
and discards the whole construction. -/
def loadCollegesData : List String → Except CppError (List CollegeData)
  | [] => .ok []
  | l :: ls =>
    match parseLine l with
    | .error e => .error e
    | .ok d =>
      match loadCollegesData ls with
      | .error e => .error e
      | .ok ds => .ok (d :: ds)

/-- A filesystem: path to the lines of the file there, `none` when the
stream fails to open. -/
def FileSystem : Type := String → Option (List String)

/-- Model of `loadCollegesData(dataFile)` including the open: throws
"Cannot open data file." when the stream is not open. -/
def loadCollegesDataFile (fs : FileSystem) (dataFile : String) :
    Except CppError (List CollegeData) :=
  match fs dataFile with
  | none => .error (.runtimeError "Error: Cannot open data file.")
  | some lines => loadCollegesData lines

/-- Class `RankIntervalStrategy`: the vector filled by `loadCollegesData`. -/
structure RankIntervalStrategy where
  collegesData : List CollegeData
deriving DecidableEq, Repr

/-- Model of `RankIntervalStrategy::allocateCollege`: linear scan in file order,
first interval containing the rank wins, fixed sentinel otherwise. -/
def allocScan : List CollegeData → Int → String
  | [], _ => "No college allocated for your rank."
  | d :: ds, userRank =>
    if userRank ≥ d.rankStart ∧ userRank ≤ d.rankEnd then d.college
    else allocScan ds userRank

/-- Method wrapper for `allocScan` on the stored records. -/
def RankIntervalStrategy.allocateCollege (s : RankIntervalStrategy)
    (userRank : Int) : String :=
  allocScan s.collegesData userRank

/-- The `RankIntervalStrategy(const std::string&)` constructor with the
static counter threaded explicitly: the body runs `loadCollegesData`
first and `totalInstances++` after, so a throwing load leaves the counter
untouched. -/
def constructRankIntervalStrategy (fs : FileSystem) (dataFile : String)
    (totalInstances : Nat) : Except CppError RankIntervalStrategy × Nat :=
  match loadCollegesDataFile fs dataFile with
  | .error e => (.error e, totalInstances)
  | .ok data => (.ok ⟨data⟩, totalInstances + 1)

/-- Model of `AnotherStrategy::allocateCollege`. -/
def AnotherStrategy.allocateCollege (_userRank : Int) : String :=
  "not eligible for round two"

/-- Model of `YetAnotherStrategy::allocateCollege`. -/
def YetAnotherStrategy.allocateCollege (_userRank : Int) : String :=
  "not eligible for round three"

/-- The closed set of strategy variants behind the virtual
`allocateCollege` interface. -/
inductive Strategy where
  | rankInterval (s : RankIntervalStrategy)
  | another
  | yetAnother

/-- Virtual dispatch of `allocateCollege` over the variants. -/
def Strategy.allocateCollege : Strategy → Int → String
  | .rankInterval s, r => s.allocateCollege r
  | .another, r => AnotherStrategy.allocateCollege r
  | .yetAnother, r => YetAnotherStrategy.allocateCollege r

/-- Class `CollegeApplication`. -/
structure CollegeApplication where
  applicantName : String
  applicantRank : Int

/-- Model of `CollegeAdmissionSystem::allocateCollege`: pure delegation to the
strategy on the applicant's rank. -/
def CollegeAdmissionSystem.allocateCollege (strategy : Strategy)
    (application : CollegeApplication) : String :=
  strategy.allocateCollege application.applicantRank

/-- The `getRankAllocation` lambda of the driver. -/
def getRankAllocation (strategy : Strategy)
    (application : CollegeApplication) : String :=
  CollegeAdmissionSystem.allocateCollege strategy application

/-- Model of `std::getline` on a fresh stream: first line of the file, or the
string left empty when the file has no line. -/
def firstLine : List String → String
  | [] => ""
  | l :: _ => l

/-- One observed run of `main`: the `Result:`/total lines printed to
stdout (the fixed prompts are omitted), the error message printed to
stderr, the exit status and the final value of the static counter. -/
structure RunResult where
  resultLines : List String
  stderrLines : List String
  exitCode : Nat
  finalCounter : Nat
deriving DecidableEq, Repr

/-- Model of `main`, over the filesystem, the applicant-name line, the rank input
token and the counter's value at process start: open `data.txt` and read
the dataset path from its first line, check the dataset opens, read the
name and the rank (throwing on a non-integer rank), construct the three
strategies and the application, print the three results and the instance
total; every exception is caught at the top, its message goes to stderr,
and the return value is 0 on every path. -/
def mainRun (fs : FileSystem) (nameInput rankInput : String)
    (counter0 : Nat) : RunResult :=
  match fs "data.txt" with
  | none => ⟨[], ["Error: Cannot open data.txt"], 0, counter0⟩
  | some pathLines =>
    match fs (firstLine pathLines) with
    | none => ⟨[], ["Error: Cannot open project.txt"], 0, counter0⟩
    | some _ =>
      match cinReadInt rankInput with
      | none =>
        ⟨[], ["Error: Invalid input for rank. Please enter a valid integer."],
          0, counter0⟩
      | some userRank =>
        match constructRankIntervalStrategy fs (firstLine pathLines) counter0 with
        | (.error e, c) => ⟨[], [e.what], 0, c⟩
        | (.ok rankStrategy, c) =>
          ⟨["Result: " ++ getRankAllocation (.rankInterval rankStrategy)
              ⟨nameInput, userRank⟩,
            "Result: " ++ getRankAllocation .another ⟨nameInput, userRank⟩,
            "Result: " ++ getRankAllocation .yetAnother ⟨nameInput, userRank⟩,
            "Total instances of RankIntervalStrategy: " ++ toString c],
            [], 0, c⟩

/-- A demonstration filesystem used by the witnesses: `data.txt` points at
`colleges.txt`, which holds two overlapping interval records. -/
def demoFs : FileSystem := fun p =>
  if p = "data.txt" then some ["colleges.txt"]
  else if p = "colleges.txt" then
    some ["100-200:Tech U", "150-300:State College"]
  else none

/-- Because `find` returns `npos` exactly on strings without the character, so the
split fails there. -/
theorem splitFirstAux_eq_none (sep : Char) (l : List Char) (h : sep ∉ l) :
    splitFirstAux sep l = none := by
  induction l with
  | nil => rfl
  | cons c cs ih =>
    simp only [List.mem_cons, not_or] at h
    rw [splitFirstAux, if_neg (fun hc => h.1 hc.symm), ih h.2]
    rfl

/-- A successful split is at the first occurrence: the prefix holds no
separator and the whole list is prefix, separator, suffix. -/
theorem splitFirstAux_some_spec (sep : Char) :
    ∀ l a b : List Char, splitFirstAux sep l = some (a, b) →
      l = a ++ sep :: b ∧ sep ∉ a := by
  intro l
  induction l with
  | nil => intro a b h; cases h
  | cons c cs ih =>
    intro a b h
    rw [splitFirstAux] at h
    by_cases hc : c = sep
    · rw [if_pos hc] at h
      simp only [Option.some.injEq, Prod.mk.injEq] at h
      obtain ⟨rfl, rfl⟩ := h
      subst hc
      exact ⟨rfl, by simp⟩
    · rw [if_neg hc] at h
      cases hsp : splitFirstAux sep cs with
      | none => rw [hsp] at h; cases h
      | some p =>
        rw [hsp] at h
        simp only [Option.map_some', Option.some.injEq, Prod.mk.injEq] at h
        obtain ⟨rfl, rfl⟩ := h
        obtain ⟨h1, h2⟩ := ih p.1 p.2 hsp
        refine ⟨by rw [List.cons_append, ← h1], ?_⟩
        simp only [List.mem_cons, not_or]
        exact ⟨fun hs => hc hs.symm, h2⟩

/-- String-level version of `splitFirstAux_eq_none`. -/
theorem splitAtFirst_eq_none (sep : Char) (s : String) (h : sep ∉ s.data) :
    splitAtFirst sep s = none := by
  unfold splitAtFirst
  rw [splitFirstAux_eq_none sep s.data h]

/-- String-level version of `splitFirstAux_some_spec`. -/
theorem splitAtFirst_some_spec (sep : Char) (s a b : String)
    (h : splitAtFirst sep s = some (a, b)) :
    s.data = a.data ++ sep :: b.data ∧ sep ∉ a.data := by
  unfold splitAtFirst at h
  cases hsp : splitFirstAux sep s.data with
  | none => rw [hsp] at h; cases h
  | some p =>
    rw [hsp] at h
    simp only [Option.some.injEq, Prod.mk.injEq] at h
    obtain ⟨rfl, rfl⟩ := h
    exact splitFirstAux_some_spec sep s.data p.1 p.2 hsp

/-- One bad line anywhere in the file makes the whole load throw. -/
theorem loadCollegesData_error_of_mem (l : String) (e : CppError)
    (h : parseLine l = .error e) (pre post : List String) :
    ∃ e2, loadCollegesData (pre ++ l :: post) = .error e2 := by
  induction pre with
  | nil => exact ⟨e, by rw [List.nil_append, loadCollegesData, h]⟩
  | cons p ps ih =>
    rw [List.cons_append, loadCollegesData]
    cases parseLine p with
    | error e3 => exact ⟨e3, rfl⟩
    | ok d =>
      obtain ⟨e2, h2⟩ := ih
      rw [h2]
      exact ⟨e2, rfl⟩

/-- The linear scan of `allocateCollege` returns the first matching
record's college, and the sentinel when there is none. -/
theorem allocScan_eq_find (ds : List CollegeData) (r : Int) :
    allocScan ds r =
      (Option.map CollegeData.college
        (ds.find? (fun d => decide (r ≥ d.rankStart ∧ r ≤ d.rankEnd)))).getD
        "No college allocated for your rank." := by
  induction ds with
  | nil => rfl
  | cons d ds ih =>
    by_cases h : r ≥ d.rankStart ∧ r ≤ d.rankEnd
    · simp [allocScan, List.find?, h]
    · simp [allocScan, List.find?, h, ih]

/-- A decimal digit is not one of the whitespace characters `stoi` skips. -/
theorem isCppSpace_eq_false_of_isDigit (c : Char) (h : c.isDigit = true) :
    isCppSpace c = false := by
  by_contra hs
  rw [Bool.not_eq_false] at hs
  unfold isCppSpace at hs
  simp only [Bool.or_eq_true, decide_eq_true_eq] at hs
  rcases hs with ((((rfl | rfl) | rfl) | rfl) | rfl) | rfl <;>
    exact absurd h (by decide)

/-- A decimal digit is neither sign character. -/
theorem ne_sign_of_isDigit (c : Char) (h : c.isDigit = true) :
    c ≠ '-' ∧ c ≠ '+' := by
  constructor <;> rintro rfl <;> exact absurd h (by decide)

/-- Dropping `isspace` characters passes over a run of them. -/
theorem dropWhile_append_spaces (w l : List Char) (h : w.all isCppSpace = true) :
    (w ++ l).dropWhile isCppSpace = l.dropWhile isCppSpace := by
  induction w with
  | nil => rfl
  | cons c cs ih =>
    simp only [List.all_cons, Bool.and_eq_true] at h
    simp [List.dropWhile_cons, h.1, ih h.2]

/-- The digit scan takes exactly a digit run followed by a non-digit. -/
theorem takeWhile_digits_append (ds rest : List Char)
    (hds : ∀ c ∈ ds, c.isDigit = true)
    (hrest : ∀ c, rest.head? = some c → c.isDigit = false) :
    (ds ++ rest).takeWhile (fun d => d.isDigit) = ds := by
  induction ds with
  | nil =>
    cases rest with
    | nil => rfl
    | cons r rs => simp [List.takeWhile_cons, hrest r rfl]
  | cons c cs ih =>
    simp [List.takeWhile_cons, hds c (by simp),
      ih (fun x hx => hds x (by simp [hx]))]

/-- On whitespace, then digits, then trailing junk, the scan of `strtol`: it, then digits, then trailing junk: it
accepts and returns the value of the digit run. -/
theorem intPrefixParse_accepts (w ds rest : List Char)
    (hw : w.all isCppSpace = true) (hne : ds ≠ [])
    (hds : ∀ c ∈ ds, c.isDigit = true)
    (hrest : ∀ c, rest.head? = some c → c.isDigit = false) :
    intPrefixParse (w ++ ds ++ rest) = some ((digitsVal ds : Nat) : Int) := by
  cases ds with
  | nil => exact absurd rfl hne
  | cons d ds2 =>
    have hd : d.isDigit = true := hds d (by simp)
    have hdrop : (w ++ (d :: ds2) ++ rest).dropWhile isCppSpace =
        d :: (ds2 ++ rest) := by
      rw [List.append_assoc, dropWhile_append_spaces w _ hw]
      simp [List.dropWhile_cons, isCppSpace_eq_false_of_isDigit d hd]
    have htake : (d :: (ds2 ++ rest)).takeWhile (fun x => x.isDigit) =
        d :: ds2 := by
      have := takeWhile_digits_append (d :: ds2) rest hds hrest
      simpa using this
    unfold intPrefixParse
    rw [hdrop, intPrefixAfterWs]
    rw [if_neg (ne_sign_of_isDigit d hd).1, if_neg (ne_sign_of_isDigit d hd).2]
    simp only [htake]
    rw [if_neg (by simp)]

/-- C1: on every parsed interval table and every integer rank,
`RankIntervalStrategy.allocateCollege` returns the college of the first
record in file order whose interval contains the rank
(`rankStart <= rank <= rankEnd`); with no containing interval it returns
exactly "No college allocated for your rank.", so when two records'
intervals overlap the earlier line wins. -/
theorem allocate_first_match_wins (lines : List String) (data : List CollegeData)
    (rank : Int) (_hparse : loadCollegesData lines = .ok data) :
    RankIntervalStrategy.allocateCollege ⟨data⟩ rank =
      (Option.map CollegeData.college
        (data.find? (fun d => decide (rank ≥ d.rankStart ∧ rank ≤ d.rankEnd)))).getD
        "No college allocated for your rank." :=
  allocScan_eq_find data rank

/-- Witness for C1: the two overlapping demo records parse, rank 150 is in
both intervals, and the earlier record's college "Tech U" is returned. -/
theorem allocate_first_match_wins_witness :
    RankIntervalStrategy.allocateCollege
        ⟨[⟨100, 200, "Tech U"⟩, ⟨150, 300, "State College"⟩]⟩ 150 =
      (Option.map CollegeData.college
        (([⟨100, 200, "Tech U"⟩, ⟨150, 300, "State College"⟩] :
            List CollegeData).find?
          (fun d => decide ((150 : Int) ≥ d.rankStart ∧ (150 : Int) ≤ d.rankEnd)))).getD
        "No college allocated for your rank." :=
  allocate_first_match_wins ["100-200:Tech U", "150-300:State College"]
    [⟨100, 200, "Tech U"⟩, ⟨150, 300, "State College"⟩] 150 rfl

/-- C2: a successful `RankIntervalStrategy` construction increments the
threaded instance counter by exactly 1; a construction whose load throws
leaves it unchanged; the counter never decreases. -/
theorem construct_counter_spec (fs : FileSystem) (dataFile : String) (c : Nat) :
    ((∃ s, (constructRankIntervalStrategy fs dataFile c).1 = .ok s) →
      (constructRankIntervalStrategy fs dataFile c).2 = c + 1) ∧
    ((∃ e, (constructRankIntervalStrategy fs dataFile c).1 = .error e) →
      (constructRankIntervalStrategy fs dataFile c).2 = c) ∧
    c ≤ (constructRankIntervalStrategy fs dataFile c).2 := by
  unfold constructRankIntervalStrategy
  cases loadCollegesDataFile fs dataFile with
  | error e =>
    refine ⟨?_, ?_, ?_⟩
    · rintro ⟨s, hs⟩; cases hs
    · intro _; rfl
    · exact Nat.le_refl c
  | ok data =>
    refine ⟨?_, ?_, ?_⟩
    · intro _; rfl
    · rintro ⟨e, he⟩; cases he
    · exact Nat.le_succ c

/-- Witness for C2: on the demo filesystem a construction from
`colleges.txt` moves the counter 0 to 1, and one from a missing file
leaves the counter at 5. -/
theorem construct_counter_spec_witness :
    (constructRankIntervalStrategy demoFs "colleges.txt" 0).2 = 1 ∧
    (constructRankIntervalStrategy demoFs "missing.txt" 5).2 = 5 :=
  ⟨(construct_counter_spec demoFs "colleges.txt" 0).1
      ⟨⟨[⟨100, 200, "Tech U"⟩, ⟨150, 300, "State College"⟩]⟩, rfl⟩,
   (construct_counter_spec demoFs "missing.txt" 5).2.1
      ⟨.runtimeError "Error: Cannot open data file.", rfl⟩⟩

/-- C6: both fixed-response strategies ignore the rank — each returns the
same constant string on every pair of inputs, "not eligible for round
two" for `AnotherStrategy` and "not eligible for round three" for
`YetAnotherStrategy`. -/
theorem fixed_strategies_constant (r1 r2 : Int) :
    AnotherStrategy.allocateCollege r1 = AnotherStrategy.allocateCollege r2 ∧
    YetAnotherStrategy.allocateCollege r1 = YetAnotherStrategy.allocateCollege r2 ∧
    AnotherStrategy.allocateCollege r1 = "not eligible for round two" ∧
    YetAnotherStrategy.allocateCollege r1 = "not eligible for round three" :=
  ⟨rfl, rfl, rfl, rfl⟩

/-- C10: a dataset with zero lines parses to the empty table, and
allocation on the empty table returns the sentinel for every rank. -/
theorem empty_dataset_sentinel (rank : Int) :
    loadCollegesData [] = .ok [] ∧
    RankIntervalStrategy.allocateCollege ⟨[]⟩ rank =
      "No college allocated for your rank." :=
  ⟨rfl, rfl⟩

/-- C3: a dataset line with no ':' throws the "Invalid data format" error
and a line whose range portion has no '-' throws the "Invalid rank range"
error; in particular "abc:College" and "1-5" fail, and a file holding
such a line anywhere fails to load. -/
theorem parse_missing_separator_errors (l1 l2 : String)
    (h1 : ':' ∉ l1.data)
    (h2 : ∃ r c, splitAtFirst ':' l2 = some (r, c) ∧ '-' ∉ r.data) :
    parseLine l1 =
      .error (.runtimeError "Error: Invalid data format in the data file.") ∧
    parseLine l2 =
      .error (.runtimeError "Error: Invalid rank range in the data file.") ∧
    parseLine "abc:College" =
      .error (.runtimeError "Error: Invalid rank range in the data file.") ∧
    parseLine "1-5" =
      .error (.runtimeError "Error: Invalid data format in the data file.") ∧
    (∀ pre post, ∃ e, loadCollegesData (pre ++ l1 :: post) = .error e) ∧
    (∀ pre post, ∃ e, loadCollegesData (pre ++ l2 :: post) = .error e) := by
  have p1 : parseLine l1 =
      .error (.runtimeError "Error: Invalid data format in the data file.") := by
    unfold parseLine
    rw [splitAtFirst_eq_none ':' l1 h1]
  have p2 : parseLine l2 =
      .error (.runtimeError "Error: Invalid rank range in the data file.") := by
    obtain ⟨r, c, hsp, hnd⟩ := h2
    simp [parseLine, hsp, splitAtFirst_eq_none '-' r hnd]
  exact ⟨p1, p2, rfl, rfl,
    fun pre post => loadCollegesData_error_of_mem l1 _ p1 pre post,
    fun pre post => loadCollegesData_error_of_mem l2 _ p2 pre post⟩

/-- Witness for C3 at the two concrete lines of the claim: "1-5" has no
':' and "abc:College" splits into a range "abc" with no '-'. -/
theorem parse_missing_separator_errors_witness :
    (':' ∉ "1-5".data) ∧
    parseLine "1-5" =
      .error (.runtimeError "Error: Invalid data format in the data file.") ∧
    parseLine "abc:College" =
      .error (.runtimeError "Error: Invalid rank range in the data file.") :=
  ⟨by decide,
   (parse_missing_separator_errors "1-5" "abc:College" (by decide)
      ⟨"abc", "College", rfl, by decide⟩).1,
   (parse_missing_separator_errors "1-5" "abc:College" (by decide)
      ⟨"abc", "College", rfl, by decide⟩).2.1⟩

/-- C4 as stated is false: the parser splits at the FIRST ':' and the
FIRST '-', so "1-2:A:B" (two colons) is accepted with label "A:B", and
"1-2-3:X" (two hyphens in the range portion "1-2-3") is accepted with
end rank 2, the "-3" being ignored by `stoi`. -/
theorem separator_multiplicity_counterexample :
    (("1-2:A:B".data.filter (fun c => c == ':')).length = 2 ∧
      parseLine "1-2:A:B" = .ok ⟨1, 2, "A:B"⟩) ∧
    (("1-2-3".data.filter (fun c => c == '-')).length = 2 ∧
      splitAtFirst ':' "1-2-3:X" = some ("1-2-3", "X") ∧
      parseLine "1-2-3:X" = .ok ⟨1, 2, "X"⟩) :=
  ⟨⟨rfl, rfl⟩, rfl, rfl, rfl⟩

/-- C4 (amended): a line is accepted only if it has at least one ':' and
its range portion (the text before the FIRST ':') has at least one '-';
the split is at the first occurrence of each separator, so further ':'
characters stay in the label and the rank halves are the exact substrings
around the first '-' of the range, each read by `stoi`. -/
theorem parse_separator_first_occurrence (line : String) (d : CollegeData)
    (h : parseLine line = .ok d) :
    ∃ range label sHalf eHalf : String,
      splitAtFirst ':' line = some (range, label) ∧ ':' ∉ range.data ∧
      line.data = range.data ++ ':' :: label.data ∧
      splitAtFirst '-' range = some (sHalf, eHalf) ∧ '-' ∉ sHalf.data ∧
      range.data = sHalf.data ++ '-' :: eHalf.data ∧
      stoi sHalf = .ok d.rankStart ∧ stoi eHalf = .ok d.rankEnd ∧
      d.college = label := by
  unfold parseLine at h
  split at h
  · cases h
  · rename_i range label hc
    split at h
    · cases h
    · rename_i sHalf eHalf hh
      split at h
      · cases h
      · rename_i v hs
        split at h
        · cases h
        · rename_i w he
          cases h
          obtain ⟨hl1, hl2⟩ := splitAtFirst_some_spec ':' line range label hc
          obtain ⟨hr1, hr2⟩ := splitAtFirst_some_spec '-' range sHalf eHalf hh
          exact ⟨range, label, sHalf, eHalf, hc, hl2, hl1, hh, hr2, hr1,
            hs, he, rfl⟩

/-- Witness for C4 (amended) at the double-colon line: the accepted record
decomposes as range "1-2", label "A:B", halves "1" and "2". -/
theorem parse_separator_first_occurrence_witness :
    parseLine "1-2:A:B" = .ok ⟨1, 2, "A:B"⟩ ∧
    (∃ range label sHalf eHalf : String,
      splitAtFirst ':' "1-2:A:B" = some (range, label) ∧ ':' ∉ range.data ∧
      "1-2:A:B".data = range.data ++ ':' :: label.data ∧
      splitAtFirst '-' range = some (sHalf, eHalf) ∧ '-' ∉ sHalf.data ∧
      range.data = sHalf.data ++ '-' :: eHalf.data ∧
      stoi sHalf = .ok (CollegeData.mk 1 2 "A:B").rankStart ∧
      stoi eHalf = .ok (CollegeData.mk 1 2 "A:B").rankEnd ∧
      (CollegeData.mk 1 2 "A:B").college = label) :=
  ⟨rfl, parse_separator_first_occurrence "1-2:A:B" ⟨1, 2, "A:B"⟩ rfl⟩

/-- C5 as stated is false: `stoi` skips leading whitespace and ignores
trailing non-digit characters, so rank substrings with surrounding
whitespace ("` 1`", "` 5`") or trailing junk ("`1x`") are accepted, not
rejected: "1x-5:College" and " 1- 5:College" both parse successfully. -/
theorem stoi_exact_substring_counterexample :
    parseLine "1x-5:College" = .ok ⟨1, 5, "College"⟩ ∧
    parseLine " 1- 5:College" = .ok ⟨1, 5, "College"⟩ ∧
    stoi " 12" = .ok 12 ∧ stoi "12abc" = .ok 12 ∧ stoi "12 " = .ok 12 :=
  ⟨rfl, rfl, rfl, rfl, rfl⟩

/-- C5 (amended): each rank half is the exact substring around the first
'-' of the range, passed unmodified to `stoi`; the line fails exactly
when `stoi` fails on a half, and `stoi`'s own scan skips leading
whitespace, reads an optional sign and the longest digit run, and
ignores what follows, failing only when that run is empty (or the value
is out of `int` range). -/
theorem parse_halves_via_stoi (line range label sHalf eHalf : String)
    (h1 : splitAtFirst ':' line = some (range, label))
    (h2 : splitAtFirst '-' range = some (sHalf, eHalf)) :
    ((∃ e, stoi sHalf = .error e) → ∃ e, parseLine line = .error e) ∧
    ((∃ e, stoi eHalf = .error e) → ∃ e, parseLine line = .error e) ∧
    (∀ v w, stoi sHalf = .ok v → stoi eHalf = .ok w →
      parseLine line = .ok ⟨v, w, label⟩) ∧
    (∀ wsp ds rest, wsp.all isCppSpace = true → ds ≠ [] →
      (∀ c ∈ ds, c.isDigit = true) →
      (∀ c, rest.head? = some c → c.isDigit = false) →
      intPrefixParse (wsp ++ ds ++ rest) = some ((digitsVal ds : Nat) : Int)) := by
  refine ⟨?_, ?_, ?_, intPrefixParse_accepts⟩
  · rintro ⟨e, he⟩
    exact ⟨e, by simp [parseLine, h1, h2, he]⟩
  · rintro ⟨e, he⟩
    cases hs : stoi sHalf with
    | error e2 => exact ⟨e2, by simp [parseLine, h1, h2, hs]⟩
    | ok v => exact ⟨e, by simp [parseLine, h1, h2, hs, he]⟩
  · intro v w hv hw
    simp [parseLine, h1, h2, hv, hw]

/-- Witness for C5 (amended) on the line "1x-5:College": halves "1x" and
"5" are read by `stoi` as 1 and 5 and the line is accepted. -/
theorem parse_halves_via_stoi_witness :
    splitAtFirst ':' "1x-5:College" = some ("1x-5", "College") ∧
    splitAtFirst '-' "1x-5" = some ("1x", "5") ∧
    parseLine "1x-5:College" = .ok ⟨1, 5, "College"⟩ :=
  ⟨rfl, rfl,
   (parse_halves_via_stoi "1x-5:College" "1x-5" "College" "1x" "5"
      rfl rfl).2.2.1 1 5 rfl rfl⟩

/-- The run when the indirection file `data.txt` does not open. -/
theorem mainRun_noPath (fs : FileSystem) (n r : String) (c0 : Nat)
    (h : fs "data.txt" = none) :
    mainRun fs n r c0 = ⟨[], ["Error: Cannot open data.txt"], 0, c0⟩ := by
  simp only [mainRun, h]

/-- The run when the dataset path read from `data.txt` does not open. -/
theorem mainRun_noDataset (fs : FileSystem) (n r : String) (c0 : Nat)
    (pls : List String) (h1 : fs "data.txt" = some pls)
    (h2 : fs (firstLine pls) = none) :
    mainRun fs n r c0 = ⟨[], ["Error: Cannot open project.txt"], 0, c0⟩ := by
  simp only [mainRun, h1, h2]

/-- The run when the rank input fails integer extraction. -/
theorem mainRun_invalidRank (fs : FileSystem) (n r : String) (c0 : Nat)
    (pls ds : List String) (h1 : fs "data.txt" = some pls)
    (h2 : fs (firstLine pls) = some ds) (h3 : cinReadInt r = none) :
    mainRun fs n r c0 =
      ⟨[], ["Error: Invalid input for rank. Please enter a valid integer."],
        0, c0⟩ := by
  simp only [mainRun, h1, h2, h3]

/-- The run when the strategy construction throws. -/
theorem mainRun_constructError (fs : FileSystem) (n r : String) (c0 : Nat)
    (pls ds : List String) (v : Int) (e : CppError) (c : Nat)
    (h1 : fs "data.txt" = some pls) (h2 : fs (firstLine pls) = some ds)
    (h3 : cinReadInt r = some v)
    (h4 : constructRankIntervalStrategy fs (firstLine pls) c0 = (.error e, c)) :
    mainRun fs n r c0 = ⟨[], [e.what], 0, c⟩ := by
  simp only [mainRun, h1, h2, h3, h4]

/-- The run that reaches the full print sequence. -/
theorem mainRun_success (fs : FileSystem) (n r : String) (c0 : Nat)
    (pls ds : List String) (v : Int) (s : RankIntervalStrategy) (c : Nat)
    (h1 : fs "data.txt" = some pls) (h2 : fs (firstLine pls) = some ds)
    (h3 : cinReadInt r = some v)
    (h4 : constructRankIntervalStrategy fs (firstLine pls) c0 = (.ok s, c)) :
    mainRun fs n r c0 =
      ⟨["Result: " ++ getRankAllocation (.rankInterval s) ⟨n, v⟩,
        "Result: " ++ getRankAllocation .another ⟨n, v⟩,
        "Result: " ++ getRankAllocation .yetAnother ⟨n, v⟩,
        "Total instances of RankIntervalStrategy: " ++ toString c],
        [], 0, c⟩ := by
  simp only [mainRun, h1, h2, h3, h4]

/-- C7: when the rank input token has no integer prefix, the driver
throws the invalid-rank message before any `RankIntervalStrategy` is
constructed: the counter keeps its prior value, nothing is printed to
stdout, and in a run where both configuration files open the message on
stderr is exactly the invalid-rank one. -/
theorem invalid_rank_precedes_construction (fs : FileSystem)
    (nameInput rankInput : String) (c0 : Nat)
    (h : cinReadInt rankInput = none) :
    (mainRun fs nameInput rankInput c0).finalCounter = c0 ∧
    (mainRun fs nameInput rankInput c0).resultLines = [] ∧
    (∀ pathLines, fs "data.txt" = some pathLines →
      ∀ datasetLines, fs (firstLine pathLines) = some datasetLines →
        (mainRun fs nameInput rankInput c0).stderrLines =
          ["Error: Invalid input for rank. Please enter a valid integer."]) := by
  cases hfs : fs "data.txt" with
  | none =>
    rw [mainRun_noPath fs nameInput rankInput c0 hfs]
    refine ⟨rfl, rfl, ?_⟩
    intro p hp
    cases hp
  | some pathLines =>
    cases hds : fs (firstLine pathLines) with
    | none =>
      rw [mainRun_noDataset fs nameInput rankInput c0 pathLines hfs hds]
      refine ⟨rfl, rfl, ?_⟩
      intro p hp
      cases hp
      intro dls hdls
      rw [hds] at hdls
      cases hdls
    | some datasetLines =>
      rw [mainRun_invalidRank fs nameInput rankInput c0 pathLines
        datasetLines hfs hds h]
      exact ⟨rfl, rfl, fun _ _ _ _ => rfl⟩

/-- Witness for C7: on the demo filesystem with rank input "abc" the
counter stays 0 and stderr carries the invalid-rank message. -/
theorem invalid_rank_precedes_construction_witness :
    cinReadInt "abc" = none ∧
    (mainRun demoFs "alice" "abc" 0).finalCounter = 0 ∧
    (mainRun demoFs "alice" "abc" 0).stderrLines =
      ["Error: Invalid input for rank. Please enter a valid integer."] :=
  ⟨rfl,
   (invalid_rank_precedes_construction demoFs "alice" "abc" 0 rfl).1,
   (invalid_rank_precedes_construction demoFs "alice" "abc" 0 rfl).2.2
     ["colleges.txt"] rfl ["100-200:Tech U", "150-300:State College"] rfl⟩

/-- C8: every run returns exit status 0, and a run that reports an error
on stderr prints no allocation results (equivalently, every run either
has an empty stderr or an empty result list). -/
theorem exit_status_always_zero (fs : FileSystem)
    (nameInput rankInput : String) (c0 : Nat) :
    (mainRun fs nameInput rankInput c0).exitCode = 0 ∧
    ((mainRun fs nameInput rankInput c0).stderrLines = [] ∨
      (mainRun fs nameInput rankInput c0).resultLines = []) := by
  cases hfs : fs "data.txt" with
  | none =>
    rw [mainRun_noPath fs nameInput rankInput c0 hfs]
    exact ⟨rfl, Or.inr rfl⟩
  | some pathLines =>
    cases hds : fs (firstLine pathLines) with
    | none =>
      rw [mainRun_noDataset fs nameInput rankInput c0 pathLines hfs hds]
      exact ⟨rfl, Or.inr rfl⟩
    | some datasetLines =>
      cases hr : cinReadInt rankInput with
      | none =>
        rw [mainRun_invalidRank fs nameInput rankInput c0 pathLines
          datasetLines hfs hds hr]
        exact ⟨rfl, Or.inr rfl⟩
      | some userRank =>
        rcases hcon : constructRankIntervalStrategy fs (firstLine pathLines) c0
          with ⟨res, c⟩
        cases res with
        | error e =>
          rw [mainRun_constructError fs nameInput rankInput c0 pathLines
            datasetLines userRank e c hfs hds hr hcon]
          exact ⟨rfl, Or.inr rfl⟩
        | ok s =>
          rw [mainRun_success fs nameInput rankInput c0 pathLines
            datasetLines userRank s c hfs hds hr hcon]
          exact ⟨rfl, Or.inl rfl⟩

/-- A construction that hands back a strategy bumped the counter by one. -/
theorem construct_ok_counter (fs : FileSystem) (dataFile : String)
    (c0 : Nat) (res : RankIntervalStrategy) (c : Nat)
    (h : constructRankIntervalStrategy fs dataFile c0 = (.ok res, c)) :
    c = c0 + 1 := by
  unfold constructRankIntervalStrategy at h
  split at h
  · simp at h
  · simp only [Prod.mk.injEq] at h
    exact h.2.symm

/-- C9: in a run started with the counter at 0 (process start) that
reaches the final print, exactly one `RankIntervalStrategy` was
constructed, so the last printed line is exactly
"Total instances of RankIntervalStrategy: 1" and the counter ends at 1. -/
theorem final_print_counter_one (fs : FileSystem)
    (nameInput rankInput : String)
    (h : (mainRun fs nameInput rankInput 0).resultLines ≠ []) :
    (mainRun fs nameInput rankInput 0).resultLines.getLast? =
      some "Total instances of RankIntervalStrategy: 1" ∧
    (mainRun fs nameInput rankInput 0).finalCounter = 1 := by
  revert h
  cases hfs : fs "data.txt" with
  | none =>
    rw [mainRun_noPath fs nameInput rankInput 0 hfs]
    intro h
    exact absurd rfl h
  | some pathLines =>
    cases hds : fs (firstLine pathLines) with
    | none =>
      rw [mainRun_noDataset fs nameInput rankInput 0 pathLines hfs hds]
      intro h
      exact absurd rfl h
    | some datasetLines =>
      cases hr : cinReadInt rankInput with
      | none =>
        rw [mainRun_invalidRank fs nameInput rankInput 0 pathLines
          datasetLines hfs hds hr]
        intro h
        exact absurd rfl h
      | some userRank =>
        rcases hcon : constructRankIntervalStrategy fs (firstLine pathLines) 0
          with ⟨res, c⟩
        cases res with
        | error e =>
          rw [mainRun_constructError fs nameInput rankInput 0 pathLines
            datasetLines userRank e c hfs hds hr hcon]
          intro h
          exact absurd rfl h
        | ok s =>
          rw [mainRun_success fs nameInput rankInput 0 pathLines
            datasetLines userRank s c hfs hds hr hcon]
          intro h
          have hc : c = 1 :=
            construct_ok_counter fs (firstLine pathLines) 0 s c hcon
          subst hc
          exact ⟨rfl, rfl⟩

/-- Witness for C9: the demo run with rank 150 reaches the final print
and its last line reports exactly one instance. -/
theorem final_print_counter_one_witness :
    (mainRun demoFs "alice" "150" 0).resultLines.getLast? =
      some "Total instances of RankIntervalStrategy: 1" ∧
    (mainRun demoFs "alice" "150" 0).finalCounter = 1 :=
  final_print_counter_one demoFs "alice" "150" (by decide)

end CollegeCounseling
